import Mathlib

/-!
Shallow embedding of the configuration-resolution core of umu-wrapper
(src/config.rs, src/error.rs, src/cli.rs).

Rust `PathBuf` values are modelled as `String` (the code only ever converts
them with `to_str`), `Option<T>` as `Option`, and fallible functions as
`Except Error`.  The Rust field `prefix` is named `pfx` here (`prefix` is a
Lean keyword); every other field keeps its source name.
-/

namespace UmuWrapper

/-- Embeds `generate_prefix_dir` (config.rs lines 5-7):
`format!("~/Games/umu/{}", game_id)`. -/
def generate_prefix_dir (game_id : String) : String :=
  "~/Games/umu/" ++ game_id

/-- Embeds `bool_to_umu_bool` (config.rs lines 9-15). -/
def bool_to_umu_bool (b : Bool) : String :=
  if b then "_1_" else "_0_"

/-- Embeds `default_game_id` (config.rs lines 41-43), the serde field default
for `Global.game_id`. -/
def default_game_id : String := "0"

/-- Embeds `struct Global` (config.rs lines 17-39).  Field `pfx` embeds the
source field `prefix`. -/
structure Global where
  proton : Option String
  pfx : Option String
  game_id : String
  proton_verb : Option String
  store : Option String
  default_template : Option String
deriving DecidableEq

/-- Embeds the Rust `#[derive(Default)]` instance of `Global`: every `Option`
field is `None` and the `String` field `game_id` is the empty string (the
derive ignores the serde field default `default_game_id`). -/
def Global.derived_default : Global :=
  { proton := none, pfx := none, game_id := "", proton_verb := none,
    store := none, default_template := none }

/-- Embeds `struct Template` (config.rs lines 290-333).  Field `pfx` embeds
the source field `prefix`. -/
structure Template where
  name : String
  pfx : Option String
  proton : Option String
  proton_verb : Option String
  store : Option String
  no_proton : Option Bool
deriving DecidableEq

/-- Embeds `struct Profile` (config.rs lines 48-104).  Field `pfx` embeds the
source field `prefix`; `exe` is a `PathBuf` modelled as `String`. -/
structure Profile where
  template : Option String
  name : String
  game_id : Option String
  store : Option String
  proton : Option String
  proton_verb : Option String
  pfx : Option String
  exe : String
  args : Option (List String)
  no_proton : Option Bool
deriving DecidableEq

/-- Embeds `struct Config` (config.rs lines 189-199). -/
structure Config where
  global : Global
  template : List Template
  profile : List Profile
deriving DecidableEq

/-- Embeds the resolution-relevant variants of `enum Error` (error.rs):
`NoProton`, and the `color_eyre` ad-hoc errors raised by `resolve_template`
and `resolve_profile` (template/profile not found, no default template).
The `Io`/`Serde`/spawn errors belong to the out-of-scope I/O collaborators. -/
inductive Error where
  | noProton
  | templateNotFound (name : String)
  | profileNotFound (name : String)
  | noDefaultTemplate
deriving DecidableEq

/-- Embeds the profile lookup of `resolve_profile` (config.rs lines 254-258):
`self.profile.iter().find(|p| p.name == name)`. -/
def Config.find_profile (c : Config) (name : String) : Option Profile :=
  c.profile.find? (fun p => p.name == name)

/-- Embeds the template lookup of `resolve_template` (config.rs lines
234-238): `self.template.iter().find(|t| t.name == name)`. -/
def Config.find_template (c : Config) (name : String) : Option Template :=
  c.template.find? (fun t => t.name == name)

/-- Embeds the global-fallback part of `resolve_template` (config.rs lines
242-248): each unset optional field of the template copy is filled from the
global layer via `Option::or_else`. -/
def Config.fill_template (c : Config) (t : Template) : Template :=
  { t with
    pfx := t.pfx.or c.global.pfx,
    proton := t.proton.or c.global.proton,
    proton_verb := t.proton_verb.or c.global.proton_verb,
    store := t.store.or c.global.store }

/-- Embeds `Config::resolve_template` (config.rs lines 232-251). -/
def Config.resolve_template (c : Config) (name : String) : Except Error Template :=
  match c.find_template name with
  | none => .error (.templateNotFound name)
  | some t => .ok (c.fill_template t)

/-- Embeds the template-name selection of `resolve_profile` (config.rs lines
260-267): the profile's own `template` field if set, else the global
`default_template` (a `none` result is the `NoDefaultTemplate` error). -/
def Config.effective_template_name (c : Config) (p : Profile) : Option String :=
  match p.template with
  | some t => some t
  | none => c.global.default_template

/-- Embeds the field-fallback block of `resolve_profile` (config.rs lines
272-284): each unset profile field is filled from the resolved template via
`Option::or_else`; `game_id` falls back to the global game id; the prefix
falls back to the template prefix and then to
`generate_prefix_dir(game_id)` computed from the already-updated game id. -/
def Config.apply_template (c : Config) (p : Profile) (tmpl : Template) : Profile :=
  let game_id := p.game_id.or (some c.global.game_id)
  { p with
    proton := p.proton.or tmpl.proton,
    proton_verb := p.proton_verb.or tmpl.proton_verb,
    store := p.store.or tmpl.store,
    game_id := game_id,
    no_proton := p.no_proton.or tmpl.no_proton,
    pfx := (p.pfx.or tmpl.pfx).or
      (some (generate_prefix_dir (game_id.getD c.global.game_id))) }

/-- Embeds `Config::resolve_profile` (config.rs lines 252-287). -/
def Config.resolve_profile (c : Config) (name : String) : Except Error Profile :=
  match c.find_profile name with
  | none => .error (.profileNotFound name)
  | some p =>
    match c.effective_template_name p with
    | none => .error .noDefaultTemplate
    | some tn =>
      match c.resolve_template tn with
      | .error e => .error e
      | .ok tmpl => .ok (c.apply_template p tmpl)

/-- Outcome of the validation/environment-construction part of
`Profile::run_profile`: `panicked` models the `unwrap()` panic on a missing
game id (config.rs line 123), `failed` the early `Err` return, and `ok` holds
the environment entries handed to the process spawn. -/
inductive RunResult where
  | panicked
  | failed (e : Error)
  | ok (envs : List (String × String))
deriving DecidableEq

/-- Embeds the validation/environment-construction part of
`Profile::run_profile` (config.rs lines 121-154); the trailing process spawn
is the out-of-scope external collaborator. -/
def Profile.run_profile (p : Profile) : RunResult :=
  match p.game_id with
  | none => .panicked
  | some gid =>
    let envs := [("GAMEID", gid)]
    let envs :=
      match p.store with
      | some s => envs ++ [("STORE", s)]
      | none => envs
    let no_proton := p.no_proton.getD false
    let no_proton_str := bool_to_umu_bool no_proton
    if no_proton then
      .ok (envs ++ [("NO_PROTON", no_proton_str)])
    else
      let envs :=
        match p.proton_verb with
        | some v => envs ++ [("PROTON_VERB", v)]
        | none => envs
      match p.proton with
      | none => .failed .noProton
      | some pr =>
        let envs := envs ++ [("PROTONPATH", pr)]
        match p.pfx with
        | some pre => .ok (envs ++ [("WINEPREFIX", pre)])
        | none =>
          .ok (envs ++ [("WINEPREFIX", generate_prefix_dir (p.game_id.getD "0"))])

/-- Embeds the merging step of `Config::load_dir` (config.rs lines 225-226):
the fragment's templates and profiles are appended to the accumulated lists;
the global layer is untouched. -/
def Config.merge_fragment (c : Config) (frag : Config) : Config :=
  { c with
    template := c.template ++ frag.template,
    profile := c.profile ++ frag.profile }

/-- Presence map of a serialised profile record: `some` means the key is
present in the TOML document with that value, `none` that it is absent.
Field `pfx` stands for the on-the-wire key `prefix`. -/
structure ProfileDoc where
  template : Option String
  name : Option String
  game_id : Option String
  store : Option String
  proton : Option String
  proton_verb : Option String
  pfx : Option String
  exe : Option String
  args : Option (List String)
  no_proton : Option Bool
deriving DecidableEq

/-- Embeds the serde deserialisation of a `Profile` record (config.rs lines
48-104): `name` has no default and is required (a missing key is a parse
error, modelled as `none`); every `Option` field deserialises a missing key
to `None`; `exe` carries `#[serde(default)]`, so a missing `exe` key
deserialises to `PathBuf::default()`, the empty path. -/
def decode_profile (d : ProfileDoc) : Option Profile :=
  match d.name with
  | none => none
  | some nm =>
    some { template := d.template, name := nm, game_id := d.game_id,
           store := d.store, proton := d.proton, proton_verb := d.proton_verb,
           pfx := d.pfx, exe := d.exe.getD "", args := d.args,
           no_proton := d.no_proton }

/-- Presence map of a serialised `[global]` table. -/
structure GlobalDoc where
  proton : Option String
  pfx : Option String
  game_id : Option String
  proton_verb : Option String
  store : Option String
  default_template : Option String
deriving DecidableEq

/-- Embeds the serde deserialisation of a present `[global]` table (config.rs
lines 17-39): every `Option` field deserialises a missing key to `None`, and
a missing `game_id` key uses `#[serde(default = "default_game_id")]`. -/
def decode_global (d : GlobalDoc) : Global :=
  { proton := d.proton, pfx := d.pfx,
    game_id := d.game_id.getD default_game_id,
    proton_verb := d.proton_verb, store := d.store,
    default_template := d.default_template }

/-- Embeds the serde deserialisation of the optional `global` section of a
config document (config.rs lines 193-194): `Config.global` carries
`#[serde(default)]`, so a document with no `[global]` table at all gets the
`#[derive(Default)]` value `Global.derived_default` (whose `game_id` is the
empty string), while a present table is decoded field by field. -/
def decode_global_section (d : Option GlobalDoc) : Global :=
  match d with
  | none => Global.derived_default
  | some g => decode_global g

example : generate_prefix_dir "42" = "~/Games/umu/42" := by rfl
example : bool_to_umu_bool true = "_1_" := by rfl

/-! Concrete fixtures used by the witness theorems. -/

/-- Template fixture: only `proton` set. -/
def wTemplate : Template :=
  { name := "t", pfx := none, proton := some "/opt/proton", proton_verb := none,
    store := none, no_proton := none }

/-- Profile fixture setting every overridable field. -/
def wProfile : Profile :=
  { template := some "t", name := "g", game_id := some "42", store := some "steam",
    proton := some "/my/proton", proton_verb := some "waitforexitandrun",
    pfx := some "/custom", exe := "game.exe", args := none, no_proton := some false }

/-- Second template fixture, referenced by the global default. -/
def wOtherTemplate : Template :=
  { name := "tOther", pfx := some "/other/pfx", proton := none,
    proton_verb := none, store := none, no_proton := some true }

/-- Global fixture decoded from a `[global]` table that sets every layer-level
field except `game_id`, and whose default template differs from the one the
profile names. -/
def wGlobal : Global :=
  decode_global_section (some
    { proton := some "/global/proton", pfx := some "/global/pfx", game_id := none,
      proton_verb := some "run", store := some "egs",
      default_template := some "tOther" })

/-- Config fixture combining the above. -/
def wConfig : Config :=
  { global := wGlobal, template := [wTemplate, wOtherTemplate],
    profile := [wProfile] }

example : wConfig.resolve_profile "g" = .ok wProfile := by rfl

/-- Fixture with an empty configuration document: no `[global]` table, a bare
template and a profile that sets nothing optional. -/
def nTemplate : Template :=
  { name := "t", pfx := none, proton := none, proton_verb := none,
    store := none, no_proton := none }

/-- Profile fixture setting no optional field. -/
def nProfile : Profile :=
  { template := some "t", name := "g", game_id := none, store := none,
    proton := none, proton_verb := none, pfx := none, exe := "game.exe",
    args := none, no_proton := none }

/-- Config fixture whose document has no `[global]` table. -/
def nConfig : Config :=
  { global := decode_global_section none, template := [nTemplate],
    profile := [nProfile] }

/-- The profile `resolve_profile` produces on `nConfig`. -/
def nResolved : Profile :=
  nConfig.apply_template nProfile (nConfig.fill_template nTemplate)

example : nConfig.resolve_profile "g" = .ok nResolved := by rfl

/-- Helper: `Option.or` is `none` exactly when both arguments are. -/
theorem option_or_eq_none_iff {α : Type} (a b : Option α) :
    Option.or a b = none ↔ a = none ∧ b = none := by
  cases a <;> simp [Option.or]

/-- Helper: a successful `resolve_profile` result is `apply_template` of the
found profile and the filled template named by `effective_template_name`. -/
theorem resolve_profile_eq_apply
    (c : Config) (n tn : String) (p q : Profile) (t : Template)
    (hfind : c.find_profile n = some p)
    (htn : c.effective_template_name p = some tn)
    (ht : c.find_template tn = some t)
    (hres : c.resolve_profile n = .ok q) :
    q = c.apply_template p (c.fill_template t) := by
  unfold Config.resolve_profile at hres
  simp only [hfind, htn] at hres
  unfold Config.resolve_template at hres
  simp only [ht, Except.ok.injEq] at hres
  exact hres.symm

/-- Helper: with a present game id, the environment-construction part of
`run_profile` returns the missing-engine error exactly when the skip-engine
flag is off and the resolved engine path is absent. -/
theorem run_profile_failed_iff (q : Profile) (h : q.game_id.isSome) :
    q.run_profile = .failed .noProton ↔
      (q.no_proton.getD false = false ∧ q.proton = none) := by
  cases hg : q.game_id with
  | none => rw [hg] at h; cases h
  | some gid =>
    cases hnp : q.no_proton with
    | none =>
      cases hs : q.store <;> cases hv : q.proton_verb <;>
      cases hp : q.proton <;> cases hpx : q.pfx <;>
        simp [Profile.run_profile, hg, hs, hnp, hv, hp, hpx]
    | some b =>
      cases b <;> cases hs : q.store <;> cases hv : q.proton_verb <;>
      cases hp : q.proton <;> cases hpx : q.pfx <;>
        simp [Profile.run_profile, hg, hs, hnp, hv, hp, hpx]

/-- Helper: any profile produced by a successful `resolve_profile` carries a
present game id (config.rs line 278 always writes a `Some`). -/
theorem resolve_profile_game_id_isSome
    (c : Config) (n : String) (q : Profile)
    (hres : c.resolve_profile n = .ok q) : q.game_id.isSome := by
  unfold Config.resolve_profile at hres
  cases hf : c.find_profile n with
  | none => simp [hf] at hres
  | some p =>
    simp only [hf] at hres
    cases htn : c.effective_template_name p with
    | none => simp [htn] at hres
    | some tn =>
      simp only [htn] at hres
      cases ht : c.resolve_template tn with
      | error e => simp [ht] at hres
      | ok tmpl =>
        simp only [ht, Except.ok.injEq] at hres
        subst hres
        unfold Config.apply_template
        cases p.game_id <;> simp [Option.or]

/-- C1: every field the profile itself sets (engine path, launch verb, store
id, game id, prefix, skip-engine flag) survives `resolve_profile` unchanged:
the resolved profile holds exactly the profile-level value, never a template
or global one. -/
theorem resolve_profile_profile_field_wins
    (c : Config) (n : String) (p q : Profile)
    (hfind : c.find_profile n = some p)
    (hres : c.resolve_profile n = .ok q) :
    (p.proton.isSome → q.proton = p.proton) ∧
    (p.proton_verb.isSome → q.proton_verb = p.proton_verb) ∧
    (p.store.isSome → q.store = p.store) ∧
    (p.game_id.isSome → q.game_id = p.game_id) ∧
    (p.pfx.isSome → q.pfx = p.pfx) ∧
    (p.no_proton.isSome → q.no_proton = p.no_proton) := by
  unfold Config.resolve_profile at hres
  simp only [hfind] at hres
  cases htn : c.effective_template_name p with
  | none => simp only [htn] at hres; cases hres
  | some tn =>
    simp only [htn] at hres
    cases ht : c.resolve_template tn with
    | error e => simp only [ht] at hres; cases hres
    | ok tmpl =>
      simp only [ht, Except.ok.injEq] at hres
      subst hres
      unfold Config.apply_template
      refine ⟨?_, ?_, ?_, ?_, ?_, ?_⟩
      all_goals intro hs
      · cases hp : p.proton with
        | none => rw [hp] at hs; cases hs
        | some a => simp [hp, Option.or]
      · cases hp : p.proton_verb with
        | none => rw [hp] at hs; cases hs
        | some a => simp [hp, Option.or]
      · cases hp : p.store with
        | none => rw [hp] at hs; cases hs
        | some a => simp [hp, Option.or]
      · cases hp : p.game_id with
        | none => rw [hp] at hs; cases hs
        | some a => simp [hp, Option.or]
      · cases hp : p.pfx with
        | none => rw [hp] at hs; cases hs
        | some a => simp [hp, Option.or]
      · cases hp : p.no_proton with
        | none => rw [hp] at hs; cases hs
        | some a => simp [hp, Option.or]

/-- Witness for C1 at the concrete fixture: `wProfile` sets every field and
`resolve_profile` returns each of them unchanged. -/
theorem resolve_profile_profile_field_wins_witness :
    (wProfile.proton.isSome → wProfile.proton = wProfile.proton) ∧
    (wProfile.proton_verb.isSome → wProfile.proton_verb = wProfile.proton_verb) ∧
    (wProfile.store.isSome → wProfile.store = wProfile.store) ∧
    (wProfile.game_id.isSome → wProfile.game_id = wProfile.game_id) ∧
    (wProfile.pfx.isSome → wProfile.pfx = wProfile.pfx) ∧
    (wProfile.no_proton.isSome → wProfile.no_proton = wProfile.no_proton) :=
  resolve_profile_profile_field_wins wConfig "g" wProfile wProfile
    (by rfl) (by rfl)

/-- C2: for a fully resolved profile, the environment-construction part of
`run_profile` fails with the missing-engine error `Error.noProton` if and
only if the skip-engine flag is false (or absent) and no engine path was
supplied by the profile, its template, or the global layer. -/
theorem run_profile_missing_engine_iff
    (c : Config) (n tn : String) (p q : Profile) (t : Template)
    (hfind : c.find_profile n = some p)
    (htn : c.effective_template_name p = some tn)
    (ht : c.find_template tn = some t)
    (hres : c.resolve_profile n = .ok q) :
    q.run_profile = .failed .noProton ↔
      (q.no_proton.getD false = false ∧
       p.proton = none ∧ t.proton = none ∧ c.global.proton = none) := by
  have hq := resolve_profile_eq_apply c n tn p q t hfind htn ht hres
  have hgid : q.game_id.isSome := by
    rw [hq]
    unfold Config.apply_template
    cases p.game_id <;> simp [Option.or]
  rw [run_profile_failed_iff q hgid]
  have hqp : q.proton = Option.or p.proton (Option.or t.proton c.global.proton) := by
    rw [hq]; rfl
  rw [hqp]
  constructor
  · rintro ⟨h1, h2⟩
    rcases (option_or_eq_none_iff _ _).1 h2 with ⟨hp2, h3⟩
    rcases (option_or_eq_none_iff _ _).1 h3 with ⟨ht2, hg2⟩
    exact ⟨h1, hp2, ht2, hg2⟩
  · rintro ⟨h1, h2, h3, h4⟩
    exact ⟨h1, by rw [h2, h3, h4]; rfl⟩

/-- C3: `resolve_profile` resolves through the profile's own `template` field
whenever it is set, even if a global `default_template` is also set; it falls
back to the global `default_template` when the profile's field is unset; and
it fails with the no-default-template error when both are absent. -/
theorem resolve_profile_template_selection
    (c : Config) (n tn : String) (p : Profile)
    (hfind : c.find_profile n = some p) :
    (p.template = some tn →
      c.resolve_profile n = (c.resolve_template tn).map (c.apply_template p)) ∧
    (p.template = none → c.global.default_template = some tn →
      c.resolve_profile n = (c.resolve_template tn).map (c.apply_template p)) ∧
    (p.template = none → c.global.default_template = none →
      c.resolve_profile n = .error .noDefaultTemplate) := by
  refine ⟨?_, ?_, ?_⟩
  · intro hpt
    have he : c.effective_template_name p = some tn := by
      unfold Config.effective_template_name
      rw [hpt]
    unfold Config.resolve_profile
    simp only [hfind, he]
    cases ht : c.resolve_template tn <;> simp [Except.map]
  · intro hpt hdt
    have he : c.effective_template_name p = some tn := by
      unfold Config.effective_template_name
      rw [hpt, hdt]
    unfold Config.resolve_profile
    simp only [hfind, he]
    cases ht : c.resolve_template tn <;> simp [Except.map]
  · intro hpt hdt
    have he : c.effective_template_name p = none := by
      unfold Config.effective_template_name
      rw [hpt, hdt]
    unfold Config.resolve_profile
    simp only [hfind, he]

/-- Witness for C3 at the concrete fixture: `wProfile` names template `t`
while the global default template is `tOther`, and `resolve_profile` resolves
through `t`. -/
theorem resolve_profile_template_selection_witness :
    (wProfile.template = some "t" →
      wConfig.resolve_profile "g" =
        (wConfig.resolve_template "t").map (wConfig.apply_template wProfile)) ∧
    (wProfile.template = none → wConfig.global.default_template = some "t" →
      wConfig.resolve_profile "g" =
        (wConfig.resolve_template "t").map (wConfig.apply_template wProfile)) ∧
    (wProfile.template = none → wConfig.global.default_template = none →
      wConfig.resolve_profile "g" = .error .noDefaultTemplate) :=
  resolve_profile_template_selection wConfig "g" "t" wProfile (by rfl)

/-- Fixture like `nProfile` but with an explicit game id `42` (prefix unset
in the profile, the template and the global layer). -/
def pProfile : Profile :=
  { nProfile with game_id := some "42" }

/-- Config fixture for the computed-default prefix scenario. -/
def pConfig : Config :=
  { global := decode_global_section none, template := [nTemplate],
    profile := [pProfile] }

/-- The profile `resolve_profile` produces on `pConfig`. -/
def pResolved : Profile :=
  pConfig.apply_template pProfile (pConfig.fill_template nTemplate)

example : pConfig.resolve_profile "g" = .ok pResolved := by rfl
example : pResolved.pfx = some "~/Games/umu/42" := by rfl

/-- C4: prefix resolution in `resolve_profile` always produces a value: the
profile prefix if set, else the resolved template prefix (which already
absorbed the global prefix), else the computed default
`generate_prefix_dir` applied to the resolved game id. -/
theorem resolve_profile_prefix_resolution
    (c : Config) (n tn gid : String) (p q : Profile) (t : Template)
    (hfind : c.find_profile n = some p)
    (htn : c.effective_template_name p = some tn)
    (ht : c.find_template tn = some t)
    (hres : c.resolve_profile n = .ok q) :
    q.pfx.isSome ∧
    (p.pfx.isSome → q.pfx = p.pfx) ∧
    (p.pfx = none → (c.fill_template t).pfx.isSome →
      q.pfx = (c.fill_template t).pfx) ∧
    (p.pfx = none → (c.fill_template t).pfx = none → q.game_id = some gid →
      q.pfx = some (generate_prefix_dir gid)) := by
  have hq := resolve_profile_eq_apply c n tn p q t hfind htn ht hres
  subst hq
  unfold Config.apply_template
  refine ⟨?_, ?_, ?_, ?_⟩
  · cases hp : p.pfx <;> cases hf : (c.fill_template t).pfx <;>
      simp [hp, hf, Option.or]
  · intro hs
    cases hp : p.pfx with
    | none => rw [hp] at hs; cases hs
    | some a => simp [hp, Option.or]
  · intro hp hs
    cases hf : (c.fill_template t).pfx with
    | none => rw [hf] at hs; cases hs
    | some b => simp [hp, hf, Option.or]
  · intro hp hf hg
    cases hpg : p.game_id <;> simp_all [Option.or, Option.getD]

/-- Witness for C4 at the concrete fixture: on `pConfig` no layer supplies a
prefix, the resolved game id is `42`, and the resolved prefix is the
computed default `generate_prefix_dir "42"`. -/
theorem resolve_profile_prefix_resolution_witness :
    pResolved.pfx.isSome ∧
    (pProfile.pfx.isSome → pResolved.pfx = pProfile.pfx) ∧
    (pProfile.pfx = none → (pConfig.fill_template nTemplate).pfx.isSome →
      pResolved.pfx = (pConfig.fill_template nTemplate).pfx) ∧
    (pProfile.pfx = none → (pConfig.fill_template nTemplate).pfx = none →
      pResolved.game_id = some "42" →
      pResolved.pfx = some (generate_prefix_dir "42")) :=
  resolve_profile_prefix_resolution pConfig "g" "t" "42" pProfile pResolved
    nTemplate (by rfl) (by rfl) (by rfl) (by rfl)

/-- Witness for C2 at the concrete fixture: on `nConfig` nothing supplies an
engine path and the flag is absent, and `run_profile` indeed fails with the
missing-engine error. -/
theorem run_profile_missing_engine_iff_witness :
    nResolved.run_profile = .failed .noProton ↔
      (nResolved.no_proton.getD false = false ∧
       nProfile.proton = none ∧ nTemplate.proton = none ∧
       nConfig.global.proton = none) :=
  run_profile_missing_engine_iff nConfig "g" "t" nProfile nResolved nTemplate
    (by rfl) (by rfl) (by rfl) (by rfl)

/-- C5 (failing input): on a configuration document with no `[global]` table
and no game id anywhere, `resolve_profile` resolves the game id to the empty
string — not to `"0"` as the spec states — because `Config`'s
`#[serde(default)]` falls back to `Global`'s `#[derive(Default)]`, whose
`String` default is empty, bypassing `default_game_id`. -/
theorem resolve_profile_game_id_empty_when_global_absent :
    nConfig.resolve_profile "g" = .ok nResolved ∧
    nResolved.game_id = some "" ∧
    nResolved.game_id ≠ some "0" := by
  refine ⟨by rfl, by rfl, by decide⟩

/-- Fixture for the skip-engine scenario: flag set, game id `1`, no engine
path in any layer. -/
def sProfile : Profile :=
  { nProfile with game_id := some "1", no_proton := some true }

/-- Config fixture for the skip-engine scenario. -/
def sConfig : Config :=
  { global := decode_global_section none, template := [nTemplate],
    profile := [sProfile] }

/-- The profile `resolve_profile` produces on `sConfig`. -/
def sResolved : Profile :=
  sConfig.apply_template sProfile (sConfig.fill_template nTemplate)

example : sConfig.resolve_profile "g" = .ok sResolved := by rfl

/-- C6: for every resolved profile whose skip-engine flag is true, the
environment construction succeeds even when no engine path is set in any
layer, and the emitted environment contains `NO_PROTON` with value `_1_`
and no `PROTONPATH` entry. -/
theorem run_profile_skip_engine
    (c : Config) (n : String) (q : Profile)
    (hres : c.resolve_profile n = .ok q)
    (hflag : q.no_proton = some true) :
    ∃ envs, q.run_profile = .ok envs ∧
      ("NO_PROTON", "_1_") ∈ envs ∧ ∀ v, ("PROTONPATH", v) ∉ envs := by
  have hgid := resolve_profile_game_id_isSome c n q hres
  cases hg : q.game_id with
  | none => rw [hg] at hgid; cases hgid
  | some gid =>
    cases hs : q.store with
    | none =>
      refine ⟨[("GAMEID", gid), ("NO_PROTON", "_1_")], ?_, ?_, ?_⟩
      · simp [Profile.run_profile, hg, hs, hflag, bool_to_umu_bool]
      · simp
      · intro v
        simp
    | some s =>
      refine ⟨[("GAMEID", gid), ("STORE", s), ("NO_PROTON", "_1_")], ?_, ?_, ?_⟩
      · simp [Profile.run_profile, hg, hs, hflag, bool_to_umu_bool]
      · simp
      · intro v
        simp

/-- Witness for C6 at the concrete fixture: on `sConfig` the resolved flag is
true and no layer has an engine path, yet `run_profile` succeeds, emits
`NO_PROTON=_1_` and no `PROTONPATH`. -/
theorem run_profile_skip_engine_witness :
    ∃ envs, sResolved.run_profile = .ok envs ∧
      ("NO_PROTON", "_1_") ∈ envs ∧ ∀ v, ("PROTONPATH", v) ∉ envs :=
  run_profile_skip_engine sConfig "g" sResolved (by rfl) (by rfl)

/-- Helper: any `NO_PROTON` entry in the environment built by `run_profile`
carries the `bool_to_umu_bool` encoding of the resolved skip-engine flag. -/
theorem run_profile_no_proton_value
    (p : Profile) (envs : List (String × String)) (v : String)
    (hrun : p.run_profile = .ok envs)
    (hmem : ("NO_PROTON", v) ∈ envs) :
    v = bool_to_umu_bool (p.no_proton.getD false) := by
  unfold Profile.run_profile at hrun
  cases hg : p.game_id with
  | none => rw [hg] at hrun; cases hrun
  | some gid =>
    simp only [hg] at hrun
    cases hb : p.no_proton.getD false with
    | true =>
      rw [hb] at hrun
      simp at hrun
      cases hs : p.store
      all_goals simp [hs] at hrun
      all_goals subst hrun
      all_goals simp at hmem
      all_goals exact hmem
    | false =>
      rw [hb] at hrun
      simp at hrun
      cases hs : p.store <;> cases hv : p.proton_verb <;>
      cases hp : p.proton <;> cases hpx : p.pfx
      all_goals simp [hs, hv, hp, hpx] at hrun
      all_goals subst hrun
      all_goals simp at hmem

/-- C7: the boolean-to-string encoding maps true to exactly `_1_` and false
to exactly `_0_`, and any skip-engine marker the environment construction
emits carries exactly this encoding of the resolved flag (the marker is
emitted only when the flag is true, so the emitted value is `_1_`). -/
theorem bool_to_umu_bool_encoding
    (p : Profile) (envs : List (String × String)) (v : String)
    (hrun : p.run_profile = .ok envs)
    (hmem : ("NO_PROTON", v) ∈ envs) :
    bool_to_umu_bool true = "_1_" ∧ bool_to_umu_bool false = "_0_" ∧
    v = bool_to_umu_bool (p.no_proton.getD false) :=
  ⟨rfl, rfl, run_profile_no_proton_value p envs v hrun hmem⟩

/-- Witness for C7 at the concrete fixture: running the skip-engine fixture
emits the marker `_1_`, which is the encoding of the resolved flag. -/
theorem bool_to_umu_bool_encoding_witness :
    bool_to_umu_bool true = "_1_" ∧ bool_to_umu_bool false = "_0_" ∧
    "_1_" = bool_to_umu_bool (sResolved.no_proton.getD false) :=
  bool_to_umu_bool_encoding sResolved
    [("GAMEID", "1"), ("NO_PROTON", "_1_")] "_1_" (by rfl) (by simp)

/-- Helper: a first match in the first list survives appending a second. -/
theorem find?_append_first {α : Type} (l₁ l₂ : List α) (f : α → Bool) (a : α)
    (h : l₁.find? f = some a) : (l₁ ++ l₂).find? f = some a := by
  induction l₁ with
  | nil => simp [List.find?] at h
  | cons x xs ih =>
    cases hf : f x with
    | true =>
      rw [List.find?_cons_of_pos _ hf] at h
      rw [List.cons_append, List.find?_cons_of_pos _ hf]
      exact h
    | false =>
      rw [List.find?_cons_of_neg _ (by simp [hf])] at h
      rw [List.cons_append, List.find?_cons_of_neg _ (by simp [hf])]
      exact ih h

/-- C8: merging an additional source appends its records, and the first-match
lookups used by `resolve_profile` and `resolve_template` still return the
first-loaded record of that name, so both resolutions are unchanged by the
appended fragment. -/
theorem merge_fragment_first_match_wins
    (c frag : Config) (n m : String) (p : Profile) (t : Template)
    (hp : c.find_profile n = some p)
    (ht : c.find_template m = some t)
    (htn : c.effective_template_name p = some m) :
    (c.merge_fragment frag).find_profile n = some p ∧
    (c.merge_fragment frag).find_template m = some t ∧
    (c.merge_fragment frag).resolve_template m = c.resolve_template m ∧
    (c.merge_fragment frag).resolve_profile n = c.resolve_profile n := by
  have hp2 : (c.merge_fragment frag).find_profile n = some p := by
    unfold Config.find_profile at hp ⊢
    unfold Config.merge_fragment
    exact find?_append_first _ _ _ _ hp
  have ht2 : (c.merge_fragment frag).find_template m = some t := by
    unfold Config.find_template at ht ⊢
    unfold Config.merge_fragment
    exact find?_append_first _ _ _ _ ht
  have hfill : (c.merge_fragment frag).global = c.global := rfl
  have hrt : (c.merge_fragment frag).resolve_template m = c.resolve_template m := by
    unfold Config.resolve_template
    simp only [ht2, ht]
    rfl
  refine ⟨hp2, ht2, hrt, ?_⟩
  have htn2 : (c.merge_fragment frag).effective_template_name p =
      c.effective_template_name p := rfl
  unfold Config.resolve_profile
  simp only [hp2, hp, htn2, htn, hrt]
  cases hrm : c.resolve_template m <;> (simp only [hrm]; try rfl)

/-- Witness for C8: a second source redefines profile `g` and template `t`,
and lookup and resolution on the merged config still use the first-loaded
records. -/
theorem merge_fragment_first_match_wins_witness :
    (wConfig.merge_fragment nConfig).find_profile "g" = some wProfile ∧
    (wConfig.merge_fragment nConfig).find_template "t" = some wTemplate ∧
    (wConfig.merge_fragment nConfig).resolve_template "t" =
      wConfig.resolve_template "t" ∧
    (wConfig.merge_fragment nConfig).resolve_profile "g" =
      wConfig.resolve_profile "g" :=
  merge_fragment_first_match_wins wConfig nConfig "g" "t" wProfile wTemplate
    (by rfl) (by rfl) (by rfl)

/-- Helper: the environment construction of `run_profile` never reaches the
panic branch when the game id is present. -/
theorem run_profile_ne_panicked (q : Profile) (h : q.game_id.isSome) :
    q.run_profile ≠ .panicked := by
  intro habs
  unfold Profile.run_profile at habs
  cases hg : q.game_id with
  | none => rw [hg] at h; cases h
  | some gid =>
    simp only [hg] at habs
    cases hb : q.no_proton.getD false
    · rw [hb] at habs
      simp at habs
      cases hp : q.proton with
      | none => simp [hp] at habs
      | some pr => cases hpx : q.pfx <;> simp [hp, hpx] at habs
    · rw [hb] at habs
      simp at habs

/-- Helper: with a present game id, every successful environment list of
`run_profile` contains the `GAMEID` entry. -/
theorem run_profile_gameid_mem
    (q : Profile) (gid : String) (envs : List (String × String))
    (hg : q.game_id = some gid) (hrun : q.run_profile = .ok envs) :
    ("GAMEID", gid) ∈ envs := by
  unfold Profile.run_profile at hrun
  simp only [hg] at hrun
  cases hb : q.no_proton.getD false with
  | true =>
    rw [hb] at hrun
    simp at hrun
    cases hs : q.store
    all_goals simp [hs] at hrun
    all_goals subst hrun
    all_goals simp
  | false =>
    rw [hb] at hrun
    simp at hrun
    cases hs : q.store <;> cases hv : q.proton_verb <;>
    cases hp : q.proton <;> cases hpx : q.pfx
    all_goals simp [hs, hv, hp, hpx] at hrun
    all_goals subst hrun
    all_goals simp

/-- C9: a profile produced by `resolve_profile` always has a present game id,
so the unconditional unwrap in `run_profile` never panics, and every
successful environment list contains a `GAMEID` entry holding it. -/
theorem run_profile_no_panic
    (c : Config) (n : String) (q : Profile) (envs : List (String × String))
    (hres : c.resolve_profile n = .ok q) :
    q.run_profile ≠ .panicked ∧
    (q.run_profile = .ok envs →
      ∃ v, q.game_id = some v ∧ ("GAMEID", v) ∈ envs) := by
  have hgid := resolve_profile_game_id_isSome c n q hres
  refine ⟨run_profile_ne_panicked q hgid, ?_⟩
  intro hrun
  cases hg : q.game_id with
  | none => rw [hg] at hgid; cases hgid
  | some gid => exact ⟨gid, rfl, run_profile_gameid_mem q gid envs hg hrun⟩

/-- Environment list `run_profile` emits for `wProfile`. -/
def wEnvs : List (String × String) :=
  [("GAMEID", "42"), ("STORE", "steam"), ("PROTON_VERB", "waitforexitandrun"),
   ("PROTONPATH", "/my/proton"), ("WINEPREFIX", "/custom")]

example : wProfile.run_profile = .ok wEnvs := by rfl

/-- Witness for C9 at the concrete fixture: `wProfile` is the profile
`resolve_profile` returns on `wConfig`; running it does not panic and emits
`GAMEID`. -/
theorem run_profile_no_panic_witness :
    wProfile.run_profile ≠ .panicked ∧
    (wProfile.run_profile = .ok wEnvs →
      ∃ v, wProfile.game_id = some v ∧ ("GAMEID", v) ∈ wEnvs) :=
  run_profile_no_panic wConfig "g" wProfile wEnvs (by rfl)

/-- C10 (failing input): a profile record that omits the `exe` key is
accepted by deserialisation with the default executable value (the empty
path), not rejected: `exe` carries `#[serde(default)]` even though its own
doc comment calls it required. -/
theorem decode_profile_missing_exe_accepted :
    decode_profile
      { template := some "t", name := some "g", game_id := none, store := none,
        proton := none, proton_verb := none, pfx := none, exe := none,
        args := none, no_proton := none } =
    some
      { template := some "t", name := "g", game_id := none, store := none,
        proton := none, proton_verb := none, pfx := none, exe := "",
        args := none, no_proton := none } := by rfl

end UmuWrapper
